import Mathlib

/-!
Shallow embedding of the Coffee Shop backend (`src/backend/src/api.py`).

The repository holds a single Flask module exposing CRUD endpoints over one
`Drink` resource.  Request bodies arrive as parsed JSON, so JSON values are
modelled by the inductive `Json` below (JSON numbers are modelled by
integers; no claim exercises fractional numbers).  Python semantics that the
handlers rely on — truthiness, `dict.get`, `int(...)` with its `ValueError`
versus `TypeError` behaviour, `json.dumps` — are embedded explicitly.

The files `database/models.py` and `auth/auth.py` are imported by `api.py`
but are not part of the sources; where a definition depends on them it is
modelled from the specification and marked `Modelled from the spec:` in its
doc comment.
-/

/-- Model of a parsed JSON value as produced by `request.get_json()`.
Numbers are modelled by integers; objects are ordered key/value lists. -/
inductive Json where
  | null : Json
  | bool (b : Bool) : Json
  | int (n : Int) : Json
  | str (s : String) : Json
  | arr (elems : List Json) : Json
  | obj (members : List (String × Json)) : Json
deriving Repr

/-- Python truthiness (`if x:`) of a JSON value: `None`, `False`, `0`, the
empty string, the empty list and the empty dict are falsy. -/
def truthy : Json → Bool
  | .null => false
  | .bool b => b
  | .int n => n != 0
  | .str s => s != ""
  | .arr elems => !elems.isEmpty
  | .obj members => !members.isEmpty

/-- Python `dict.get(key, None)`: the first binding of `key`, else `None`. -/
def dictGet : List (String × Json) → String → Json
  | [], _ => .null
  | (k, v) :: rest, key => if k == key then v else dictGet rest key

/-- Exceptions the handlers can raise but never catch: `AttributeError`
(from `.get` on a non-dict) and `TypeError` (from `int(...)` on a value
that is neither a string nor a number). -/
inductive PyExc where
  | attributeError : PyExc
  | typeError : PyExc
deriving DecidableEq, Repr

/-- Outcome of Python `int(x)`. -/
inductive IntResult where
  | ok (n : Int) : IntResult
  | valueError : IntResult
  | typeError : IntResult
deriving DecidableEq, Repr

/-- Characters Python's `int(str)` strips from both ends. -/
def isPyWs (c : Char) : Bool :=
  c == ' ' || c == '\t' || c == '\n' || c == '\r'

/-- Decimal digits to a natural number. -/
def digitsToNat (l : List Char) : Nat :=
  l.foldl (fun a c => a * 10 + (c.toNat - '0'.toNat)) 0

/-- Python `int(s)` on a string: optional surrounding whitespace, optional
sign, then at least one decimal digit; anything else raises `ValueError`. -/
def parsePyInt (s : String) : Option Int :=
  let core := ((s.toList.dropWhile isPyWs).reverse.dropWhile isPyWs).reverse
  match core with
  | '+' :: rest =>
      if rest ≠ [] ∧ rest.all (·.isDigit) then some (digitsToNat rest) else none
  | '-' :: rest =>
      if rest ≠ [] ∧ rest.all (·.isDigit) then some (-(digitsToNat rest : Int)) else none
  | l =>
      if l ≠ [] ∧ l.all (·.isDigit) then some (digitsToNat l) else none

/-- Python `int(x)` on a JSON value: integers pass through, booleans coerce
to 0/1, strings are parsed (`ValueError` on failure), and `None`, lists and
dicts raise `TypeError`. -/
def pyInt : Json → IntResult
  | .int n => .ok n
  | .bool b => .ok (if b then 1 else 0)
  | .str s =>
      match parsePyInt s with
      | some n => .ok n
      | none => .valueError
  | _ => .typeError

/-- Check of one recipe step `r` inside `check_drink_body`'s loop:
`r.get` raises `AttributeError` when `r` is not a dict; a falsy `color`,
`name` or `parts` returns `False`; then `int(parts)` is attempted with only
`ValueError` caught, so a `TypeError` escapes. -/
def checkStep (r : Json) : Except PyExc Bool :=
  match r with
  | .obj members =>
      let color := dictGet members "color"
      let name := dictGet members "name"
      let parts := dictGet members "parts"
      if !truthy color || !truthy name || !truthy parts then
        .ok false
      else
        match pyInt parts with
        | .ok _ => .ok true
        | .valueError => .ok false
        | .typeError => .error .typeError
  | _ => .error .attributeError

/-- The `for r in recipe:` loop of `check_drink_body`: first failing or
raising step decides. -/
def checkSteps : List Json → Except PyExc Bool
  | [] => .ok true
  | r :: rest =>
      match checkStep r with
      | .error e => .error e
      | .ok false => .ok false
      | .ok true => checkSteps rest

/-- `check_drink_body(body)` from `api.py`: a falsy body fails; `title` is
fetched but never validated; `recipe` must be a list; each step is checked
by the loop.  Calling `.get` on a truthy non-dict body raises
`AttributeError`. -/
def check_drink_body (body : Json) : Except PyExc Bool :=
  if truthy body = false then .ok false
  else
    match body with
    | .obj members =>
        match dictGet members "recipe" with
        | .arr steps => checkSteps steps
        | _ => .ok false
    | _ => .error .attributeError

example : check_drink_body (.obj [("title", .str "T"), ("recipe", .arr [])]) = .ok true := rfl

example : check_drink_body (.obj [("recipe", .arr [.obj [("color", .str "white"),
    ("name", .str "milk"), ("parts", .int 3)]])]) = .ok true := rfl

example : check_drink_body (.obj [("title", .str "T"),
    ("recipe", .arr [.obj [("color", .str "c"), ("name", .str "n"),
      ("parts", .int 0)]])]) = .ok false := rfl

example : check_drink_body (.obj [("title", .str "T"),
    ("recipe", .arr [.str "oops"])]) = .error .attributeError := rfl

example : check_drink_body (.obj [("title", .str "T"),
    ("recipe", .arr [.obj [("color", .str "c"), ("name", .str "n"),
      ("parts", .arr [.int 1])]])]) = .error .typeError := rfl

/-- Escaping of one character inside a Python `json.dumps` string literal. -/
def escapeChar (c : Char) : String :=
  if c == '"' then "\\\""
  else if c == '\\' then "\\\\"
  else if c == '\n' then "\\n"
  else if c == '\t' then "\\t"
  else if c == '\r' then "\\r"
  else String.singleton c

/-- Escaping of a whole string for `json.dumps`. -/
def escapeString (s : String) : String :=
  String.join (s.toList.map escapeChar)

mutual

/-- Python `json.dumps` with its default separators: a string value is
wrapped in quotation marks, which is what `api.py` applies to the `title`
before storing it. -/
def pyJsonDumps : Json → String
  | .null => "null"
  | .bool true => "true"
  | .bool false => "false"
  | .int n => toString n
  | .str s => "\"" ++ escapeString s ++ "\""
  | .arr elems => "[" ++ dumpsElems elems ++ "]"
  | .obj members => "\x7b" ++ dumpsMembers members ++ "\x7d"

/-- Serialization of the elements of a JSON array, comma separated. -/
def dumpsElems : List Json → String
  | [] => ""
  | [x] => pyJsonDumps x
  | x :: y :: rest => pyJsonDumps x ++ ", " ++ dumpsElems (y :: rest)

/-- Serialization of the members of a JSON object, comma separated. -/
def dumpsMembers : List (String × Json) → String
  | [] => ""
  | [(k, v)] => "\"" ++ escapeString k ++ "\": " ++ pyJsonDumps v
  | (k, v) :: m :: rest =>
      "\"" ++ escapeString k ++ "\": " ++ pyJsonDumps v ++ ", " ++ dumpsMembers (m :: rest)

end

example : pyJsonDumps (.str "Latte") = "\"Latte\"" := rfl

example : pyJsonDumps .null = "null" := rfl

/-- One persisted row of the drink table.  `title` is the text column
exactly as the handler wrote it.  `recipe` is the text column seen through
the Recipe Codec: `api.py` writes `json.dumps(recipe)` and every read goes
through `json.loads`; the spec's codec contract `decode(encode(x)) = x`
makes the column observationally the JSON value it encodes, so it is
modelled by that value.  Modelled from the spec: the `Drink` model of
`database/models.py` is not among the sources. -/
structure StoredDrink where
  id : Nat
  title : String
  recipe : Json
deriving Repr

/-- The value SQLAlchemy stores when a JSON value is assigned to the text
column (`drink.title = title` in the PATCH handler): a JSON string is
stored verbatim.  Only the string case is exercised by the endpoints'
claims; other values are kept as their textual form. -/
def jsonAsText : Json → String
  | .str s => s
  | j => pyJsonDumps j

/-- Lookup of a key in a JSON object; `null` when absent or not an object. -/
def jsonGetKey (j : Json) (key : String) : Json :=
  match j with
  | .obj members => dictGet members key
  | _ => .null

/-- Elements of a JSON array; `[]` when not an array. -/
def jsonArrElems : Json → List Json
  | .arr elems => elems
  | _ => []

/-- Presence of a key in a JSON object. -/
def jsonHasKey (j : Json) (key : String) : Bool :=
  match j with
  | .obj members => members.any (fun p => p.1 == key)
  | _ => false

/-- Modelled from the spec: `Drink.long` of the missing
`database/models.py` — the long view carries id, the title column verbatim,
and the decoded recipe with every step field (spec section 4.2,
`longView(steps) -> sequence of color, name, parts`). -/
def drinkLong (d : StoredDrink) : Json :=
  .obj [("id", .int d.id), ("title", .str d.title), ("recipe", d.recipe)]

/-- Modelled from the spec: the short view of one recipe step keeps `color`
and `name` and drops `parts` (spec section 4.2, `shortView(steps) ->
sequence of color and name, parts omitted`). -/
def shortStep (r : Json) : Json :=
  .obj [("color", jsonGetKey r "color"), ("name", jsonGetKey r "name")]

/-- Modelled from the spec: `Drink.short` of the missing
`database/models.py` — id, title column verbatim, and the decoded recipe
rendered step by step through `shortStep`. -/
def drinkShort (d : StoredDrink) : Json :=
  .obj [("id", .int d.id), ("title", .str d.title),
        ("recipe", .arr ((jsonArrElems d.recipe).map shortStep))]

/-- The endpoints of `api.py`. -/
inductive Endpoint where
  | getDrinks : Endpoint
  | getDrinksDetail : Endpoint
  | postDrinks : Endpoint
  | patchDrinks : Endpoint
  | deleteDrinks : Endpoint
deriving DecidableEq, Repr

/-- Permission demanded by the `requires_auth` decorator on each handler in
`api.py`; `none` for the undecorated `get_drinks`. -/
def requiredPermission : Endpoint → Option String
  | .getDrinks => none
  | .getDrinksDetail => some "get:drinks-detail"
  | .postDrinks => some "post:drinks"
  | .patchDrinks => some "patch:drinks"
  | .deleteDrinks => some "delete:drinks"

/-- Outcome of the POST /drinks handler body (after authorization). -/
inductive PostResult where
  | badRequest : PostResult
  | raised (e : PyExc) : PostResult
  | created (d : StoredDrink) : PostResult
deriving Repr

/-- `post_drink` from `api.py`: the body is validated by
`check_drink_body` (400 when it returns `False`; an escaped exception ends
the request as a server error); on success the handler stores
`json.dumps(title)` in the title column and the encoded recipe, and the new
row is appended with a fresh id.  The 422 branch (store-write failure) is
outside the model: the store is a plain list whose insert cannot fail. -/
def post_drink (store : List StoredDrink) (body : Json) :
    PostResult × List StoredDrink :=
  match check_drink_body body with
  | .error e => (.raised e, store)
  | .ok false => (.badRequest, store)
  | .ok true =>
      match body with
      | .obj members =>
          let d : StoredDrink :=
            { id := store.length + 1,
              title := pyJsonDumps (dictGet members "title"),
              recipe := dictGet members "recipe" }
          (.created d, store ++ [d])
      | _ => (.raised .attributeError, store)

/-- Outcome of the PATCH /drinks/id handler body (after authorization). -/
inductive PatchResult where
  | notFound : PatchResult
  | badRequest : PatchResult
  | raised (e : PyExc) : PatchResult
  | ok (d : StoredDrink) : PatchResult
deriving Repr

/-- `patch_drink` from `api.py`: 404 when the id is absent; 400 on a falsy
body; a truthy `title` is assigned to the title column; a truthy non-list
`recipe` aborts 400; a truthy (hence non-empty) `recipe` list enters
`for i in enumerate(recipe)` whose loop variable is the (index, item) pair,
and `recipe[i]` — a list indexed by a tuple — raises `TypeError` at once.
Mutations are persisted only when `drink.update()` is reached, so every
failing path leaves the store unchanged. -/
def patch_drink (store : List StoredDrink) (i : Nat) (body : Json) :
    PatchResult × List StoredDrink :=
  match store.find? (fun d => d.id == i) with
  | none => (.notFound, store)
  | some drink =>
      if truthy body = false then (.badRequest, store)
      else
        match body with
        | .obj members =>
            let titleJ := dictGet members "title"
            let drink1 :=
              if truthy titleJ then { drink with title := jsonAsText titleJ } else drink
            let recipeJ := dictGet members "recipe"
            if truthy recipeJ then
              match recipeJ with
              | .arr _ => (.raised .typeError, store)
              | _ => (.badRequest, store)
            else
              (.ok drink1, store.map (fun d => if d.id == i then drink1 else d))
        | _ => (.raised .attributeError, store)

/-- Outcome of the DELETE /drinks/id handler body (after authorization). -/
inductive DeleteResult where
  | notFound : DeleteResult
  | deleted (i : Nat) : DeleteResult
deriving DecidableEq, Repr

/-- `delete_drinks` from `api.py`: 404 when no row has the id, otherwise
the row is deleted and `{success, delete: id}` returned. -/
def delete_drinks (store : List StoredDrink) (i : Nat) :
    DeleteResult × List StoredDrink :=
  match store.find? (fun d => d.id == i) with
  | none => (.notFound, store)
  | some _ => (.deleted i, store.filter (fun d => d.id != i))

/-- `get_drinks` from `api.py`: no `requires_auth` decorator, every row
rendered in short view. -/
def get_drinks (store : List StoredDrink) : Json :=
  .obj [("success", .bool true), ("drinks", .arr (store.map drinkShort))]

/-- `get_drinks_details` from `api.py`: rows rendered in long view (runs
only behind the `get:drinks-detail` permission). -/
def get_drinks_details (store : List StoredDrink) : Json :=
  .obj [("success", .bool true), ("drinks", .arr (store.map drinkLong))]

/-- The uniform failure body `{success: false, error, message}`. -/
def errBody (code : Int) (message : String) : Json :=
  .obj [("success", .bool false), ("error", .int code), ("message", .str message)]

/-- The 422 error handler of `api.py`: body plus explicit status 422. -/
def unprocessable_response : Json × Nat :=
  (errBody 422 "unprocessable", 422)

/-- The 404 error handler of `api.py`: body plus explicit status 404. -/
def not_found_response : Json × Nat :=
  (errBody 404 "resource not found", 404)

/-- The 500 error handler of `api.py` (`server_error`): it returns
`jsonify({...})` with no status tuple, and a Flask handler that returns
only a body gets the default HTTP status 200. -/
def server_error_response : Json × Nat :=
  (errBody 500 "Something went wrong.", 200)

/-- The example body of the spec: POST of title "Latte" with one step
`color: white, name: milk, parts: 3`. -/
def latteBody : Json :=
  .obj [("title", .str "Latte"),
        ("recipe", .arr [.obj [("color", .str "white"), ("name", .str "milk"),
          ("parts", .int 3)]])]

/-- The row `post_drink` stores for `latteBody`: the handler wrote
`json.dumps("Latte")` into the title column. -/
def latteStored : StoredDrink :=
  { id := 1, title := "\"Latte\"",
    recipe := .arr [.obj [("color", .str "white"), ("name", .str "milk"),
      ("parts", .int 3)]] }

/-- C1: posting `{title: "Latte", recipe: [{color: white, name: milk,
parts: 3}]}` into an empty store creates a row, but the handler applies
`json.dumps` to the title, so the stored and returned title is the
seven-character string `"Latte"` (quotation marks included), not `Latte`;
the first step's `parts` does round-trip to 3. -/
theorem post_latte_title_json_encoded :
    post_drink [] latteBody = (.created latteStored, [latteStored]) ∧
    latteStored.title = "\"Latte\"" ∧
    latteStored.title ≠ "Latte" ∧
    jsonGetKey (drinkLong latteStored) "title" = .str "\"Latte\"" ∧
    jsonGetKey ((jsonArrElems latteStored.recipe).headD .null) "parts" = .int 3 :=
  ⟨rfl, rfl, by decide, rfl, rfl⟩

/-- A one-row store holding the Latte drink, used to exercise PATCH. -/
def patchStoreW : List StoredDrink :=
  [{ id := 1, title := "Latte",
     recipe := .arr [.obj [("color", .str "white"), ("name", .str "milk"),
       ("parts", .int 3)]] }]

/-- C2: a PATCH on an existing drink whose body carries a non-empty recipe
list does not merge by position: the loop `for i in enumerate(recipe)`
binds `i` to the (index, item) pair and `recipe[i]` indexes the list with
a tuple, raising `TypeError`, so the request ends as a server error and
the store is unchanged. -/
theorem patch_recipe_raises_typeerror :
    patch_drink patchStoreW 1 (.obj [("recipe", .arr [.obj [("parts", .int 5)]])]) =
      (.raised .typeError, patchStoreW) :=
  rfl

/-- A POST body with a well-formed recipe step and no `title` member. -/
def noTitleBody : Json :=
  .obj [("recipe", .arr [.obj [("color", .str "white"), ("name", .str "milk"),
    ("parts", .int 3)]])]

/-- C5: `check_drink_body` fetches `title` but never validates it, so a
body without a title passes validation and `post_drink` creates a row —
with title column `json.dumps(None) = "null"` — instead of rejecting with
400. -/
theorem post_missing_title_accepted :
    post_drink [] noTitleBody =
      (.created { id := 1, title := "null",
                  recipe := .arr [.obj [("color", .str "white"), ("name", .str "milk"),
                    ("parts", .int 3)]] },
       [{ id := 1, title := "null",
          recipe := .arr [.obj [("color", .str "white"), ("name", .str "milk"),
            ("parts", .int 3)]] }]) :=
  rfl

/-- C9: the `server_error` handler builds the uniform failure body with
`error: 500` and the fixed message, but returns it without a status tuple,
so the HTTP status Flask sends is the default 200, not 500. -/
theorem server_error_http_status_200 :
    server_error_response.1 = errBody 500 "Something went wrong." ∧
    server_error_response.2 = 200 ∧
    server_error_response.2 ≠ 500 :=
  ⟨rfl, rfl, by decide⟩

/-- C10: `check_drink_body` is not total: a recipe list holding a
non-object element raises `AttributeError` from `.get`, and a step whose
`parts` is a list raises `TypeError` from `int(...)` (only `ValueError` is
caught); in both cases `post_drink` ends with the uncaught exception — an
internal server error — rather than the 400 validation rejection, and
nothing is written. -/
theorem check_drink_body_not_total :
    check_drink_body (.obj [("title", .str "T"), ("recipe", .arr [.str "oops"])]) =
      .error .attributeError ∧
    check_drink_body (.obj [("title", .str "T"),
      ("recipe", .arr [.obj [("color", .str "c"), ("name", .str "n"),
        ("parts", .arr [.int 1])]])]) = .error .typeError ∧
    post_drink [] (.obj [("title", .str "T"), ("recipe", .arr [.str "oops"])]) =
      (.raised .attributeError, []) ∧
    post_drink [] (.obj [("title", .str "T"),
      ("recipe", .arr [.obj [("color", .str "c"), ("name", .str "n"),
        ("parts", .arr [.int 1])]])]) = (.raised .typeError, []) :=
  ⟨rfl, rfl, rfl, rfl⟩

/-- One recipe step object with the three fields of the body schema. -/
def stepBody (c n : String) (p : Json) : Json :=
  .obj [("color", .str c), ("name", .str n), ("parts", p)]

/-- A POST body with a title and a single recipe step. -/
def singleStepBody (t : Json) (c n : String) (p : Json) : Json :=
  .obj [("title", t), ("recipe", .arr [stepBody c n p])]

/-- Whether Python `int(x)` succeeds on the value. -/
def pyIntOk (p : Json) : Bool :=
  match pyInt p with
  | .ok _ => true
  | _ => false

/-- The row `post_drink` appends for a `singleStepBody` it accepts. -/
def newSingleStepDrink (store : List StoredDrink) (t : Json) (c n : String)
    (p : Json) : StoredDrink :=
  { id := store.length + 1, title := pyJsonDumps t,
    recipe := .arr [stepBody c n p] }

/-- On a step whose `color` and `name` are non-empty strings and whose
`parts` does not make `int(...)` raise `TypeError`, the step check returns
exactly "parts is truthy and parses as an integer". -/
lemma checkStep_stepBody (c n : String) (hc : c ≠ "") (hn : n ≠ "")
    (p : Json) (hp : pyInt p ≠ .typeError) :
    checkStep (stepBody c n p) = .ok (truthy p && pyIntOk p) := by
  have htc : truthy (Json.str c) = true := by simpa [truthy] using hc
  have htn : truthy (Json.str n) = true := by simpa [truthy] using hn
  have e : checkStep (stepBody c n p) =
      (if !truthy (.str c) || !truthy (.str n) || !truthy p then (.ok false : Except PyExc Bool)
       else match pyInt p with
            | .ok _ => .ok true
            | .valueError => .ok false
            | .typeError => .error .typeError) := rfl
  rw [e, htc, htn]
  simp only [Bool.not_true, Bool.false_or]
  cases htp : truthy p
  · rfl
  · simp only [Bool.not_true, Bool.true_and]
    cases hpi : pyInt p
    · simp [pyIntOk, hpi]
    · simp [pyIntOk, hpi]
    · exact absurd hpi hp

/-- Validation of a `singleStepBody` reduces to the step's parts test. -/
lemma check_drink_body_singleStepBody (t : Json) (c n : String)
    (hc : c ≠ "") (hn : n ≠ "") (p : Json) (hp : pyInt p ≠ .typeError) :
    check_drink_body (singleStepBody t c n p) = .ok (truthy p && pyIntOk p) := by
  have e : check_drink_body (singleStepBody t c n p) = checkSteps [stepBody c n p] := rfl
  rw [e]
  simp only [checkSteps, checkStep_stepBody c n hc hn p hp]
  cases truthy p && pyIntOk p
  · rfl
  · rfl

/-- C3 (amended): for a creation body whose step has non-empty `color` and
`name` and whose `parts` is a value `int(...)` does not raise `TypeError`
on (a string or a number), the request is accepted — and the row written —
exactly when `parts` is truthy and parses as an integer; otherwise the
whole request is rejected with 400 and the store is unchanged.  In
particular a falsy `parts` such as the integer 0 is rejected even though it
parses. -/
theorem post_parts_truthy_parse_iff (store : List StoredDrink) (t : Json)
    (c n : String) (hc : c ≠ "") (hn : n ≠ "") (p : Json)
    (hp : pyInt p ≠ .typeError) :
    post_drink store (singleStepBody t c n p) =
      (if truthy p && pyIntOk p then
        (.created (newSingleStepDrink store t c n p),
         store ++ [newSingleStepDrink store t c n p])
      else (.badRequest, store)) := by
  have h := check_drink_body_singleStepBody t c n hc hn p hp
  cases hb : (truthy p && pyIntOk p) <;> rw [hb] at h
  · unfold post_drink
    rw [h]
    rfl
  · unfold post_drink
    rw [h]
    rfl

/-- Witness for C3's amended theorem at `parts = "3"`. -/
theorem post_parts_truthy_parse_iff_witness :
    ("c" : String) ≠ "" ∧ ("n" : String) ≠ "" ∧
    pyInt (.str "3") ≠ IntResult.typeError ∧
    post_drink [] (singleStepBody (.str "T") "c" "n" (.str "3")) =
      (if truthy (.str "3") && pyIntOk (.str "3") then
        (.created (newSingleStepDrink [] (.str "T") "c" "n" (.str "3")),
         [] ++ [newSingleStepDrink [] (.str "T") "c" "n" (.str "3")])
      else (.badRequest, [])) :=
  ⟨by decide, by decide, by decide,
   post_parts_truthy_parse_iff [] (.str "T") "c" "n" (by decide) (by decide)
     (.str "3") (by decide)⟩

/-- C3 (counterexample to the claim as stated): `parts = 0` parses as an
integer, yet the whole request is rejected with 400 because `0` is falsy
in the `not parts` test. -/
theorem parts_zero_parseable_but_rejected :
    pyInt (.int 0) = .ok 0 ∧
    post_drink [] (.obj [("title", .str "T"),
      ("recipe", .arr [.obj [("color", .str "c"), ("name", .str "n"),
        ("parts", .int 0)]])]) = (.badRequest, []) :=
  ⟨rfl, rfl⟩

/-- Whether a JSON value is an array (Python `isinstance(x, list)`). -/
def jsonIsArr : Json → Bool
  | .arr _ => true
  | _ => false

/-- A POST body with a `title` member and a `recipe` member. -/
def titleRecipeBody (t r : Json) : Json :=
  .obj [("title", t), ("recipe", r)]

/-- C4 (counterexample to the claim as stated): an empty recipe list passes
`check_drink_body` (the step loop runs zero times), so the request is not
rejected and a row with an empty recipe is created. -/
theorem post_empty_recipe_accepted :
    post_drink [] (titleRecipeBody (.str "T") (.arr [])) =
      (.created { id := 1, title := "\"T\"", recipe := .arr [] },
       [{ id := 1, title := "\"T\"", recipe := .arr [] }]) :=
  rfl

/-- C4 (amended): a POST whose `recipe` is not a list is rejected with 400
and the store is unchanged (an empty list, see the counterexample, passes). -/
theorem post_nonlist_recipe_rejected (store : List StoredDrink) (t r : Json)
    (h : jsonIsArr r = false) :
    post_drink store (titleRecipeBody t r) = (.badRequest, store) := by
  cases r
  case arr => simp [jsonIsArr] at h
  all_goals rfl

/-- Witness for C4's amended theorem at a string-valued recipe. -/
theorem post_nonlist_recipe_rejected_witness :
    jsonIsArr (.str "nope") = false ∧
    post_drink [] (titleRecipeBody (.str "T") (.str "nope")) = (.badRequest, []) :=
  ⟨by decide, post_nonlist_recipe_rejected [] (.str "T") (.str "nope") (by decide)⟩

/-- C6: on an existing drink, a PATCH whose body holds only a non-empty
title sets the title column to that value, returns the updated drink, and
leaves the recipe column — every step, every field — and every other row
unchanged. -/
theorem patch_title_only_preserves_recipe
    (store : List StoredDrink) (i : Nat) (d : StoredDrink)
    (hfind : store.find? (fun x => x.id == i) = some d)
    (s : String) (hs : s ≠ "") :
    patch_drink store i (.obj [("title", .str s)]) =
      (.ok { d with title := s },
       store.map (fun x => if x.id == i then { d with title := s } else x)) ∧
    ({ d with title := s } : StoredDrink).recipe = d.recipe := by
  have hbne : (s != "") = true := by simpa using hs
  constructor
  · unfold patch_drink
    rw [hfind]
    simp only [truthy, dictGet, jsonAsText, List.isEmpty_cons, Bool.not_false, hbne,
      show (("title" : String) == "recipe") = false from rfl,
      show (("title" : String) == "title") = true from rfl]
    simp [hs]
  · rfl

/-- Witness for C6 on a one-row store. -/
theorem patch_title_only_preserves_recipe_witness :
    ([({ id := 1, title := "Latte",
         recipe := Json.arr [Json.obj [("color", Json.str "white"),
           ("name", Json.str "milk"), ("parts", Json.int 3)]] } : StoredDrink)].find?
       (fun x => x.id == 1) =
      some { id := 1, title := "Latte",
             recipe := Json.arr [Json.obj [("color", Json.str "white"),
               ("name", Json.str "milk"), ("parts", Json.int 3)]] }) ∧
    ("X" : String) ≠ "" ∧
    (patch_drink
        [{ id := 1, title := "Latte",
           recipe := Json.arr [Json.obj [("color", Json.str "white"),
             ("name", Json.str "milk"), ("parts", Json.int 3)]] }] 1
        (.obj [("title", .str "X")]) =
      (.ok { id := 1, title := "X",
             recipe := Json.arr [Json.obj [("color", Json.str "white"),
               ("name", Json.str "milk"), ("parts", Json.int 3)]] },
       [{ id := 1, title := "Latte",
          recipe := Json.arr [Json.obj [("color", Json.str "white"),
            ("name", Json.str "milk"), ("parts", Json.int 3)]] }].map
         (fun x => if x.id == 1 then
            { id := 1, title := "X",
              recipe := Json.arr [Json.obj [("color", Json.str "white"),
                ("name", Json.str "milk"), ("parts", Json.int 3)]] }
          else x))) ∧
    ({ id := 1, title := "X",
       recipe := Json.arr [Json.obj [("color", Json.str "white"),
         ("name", Json.str "milk"), ("parts", Json.int 3)]] } : StoredDrink).recipe =
      Json.arr [Json.obj [("color", Json.str "white"),
        ("name", Json.str "milk"), ("parts", Json.int 3)]] :=
  ⟨rfl, by decide,
   patch_title_only_preserves_recipe
     [{ id := 1, title := "Latte",
        recipe := Json.arr [Json.obj [("color", Json.str "white"),
          ("name", Json.str "milk"), ("parts", Json.int 3)]] }] 1
     { id := 1, title := "Latte",
       recipe := Json.arr [Json.obj [("color", Json.str "white"),
         ("name", Json.str "milk"), ("parts", Json.int 3)]] }
     rfl "X" (by decide)⟩

/-- C7: a DELETE whose id matches no row returns the not-found outcome and
leaves the store unchanged. -/
theorem delete_absent_id_404 (store : List StoredDrink) (i : Nat)
    (h : ∀ d ∈ store, d.id ≠ i) :
    delete_drinks store i = (.notFound, store) := by
  have hf : store.find? (fun d => d.id == i) = none := by
    rw [List.find?_eq_none]
    intro d hd
    simpa using h d hd
  unfold delete_drinks
  rw [hf]

/-- Witness for C7 on a one-row store and an absent id. -/
theorem delete_absent_id_404_witness :
    (∀ d ∈ [({ id := 1, title := "Latte", recipe := Json.arr [] } : StoredDrink)],
      d.id ≠ 2) ∧
    delete_drinks [({ id := 1, title := "Latte", recipe := Json.arr [] } : StoredDrink)] 2 =
      (.notFound, [{ id := 1, title := "Latte", recipe := Json.arr [] }]) :=
  ⟨by intro d hd; rw [List.mem_singleton] at hd; subst hd; decide,
   delete_absent_id_404 _ 2
     (by intro d hd; rw [List.mem_singleton] at hd; subst hd; decide)⟩

/-- Short views never expose a `parts` key, whatever the stored recipe. -/
lemma drinkShort_no_parts (d : StoredDrink) :
    ((jsonArrElems (jsonGetKey (drinkShort d) "recipe")).all
      (fun st => !(jsonHasKey st "parts"))) = true := by
  rw [show jsonArrElems (jsonGetKey (drinkShort d) "recipe")
      = (jsonArrElems d.recipe).map shortStep from rfl]
  induction jsonArrElems d.recipe with
  | nil => rfl
  | cons st rest ih =>
      rw [List.map_cons, List.all_cons, ih]
      rfl

/-- C8: the GET /drinks handler carries no `requires_auth` decorator — no
token or permission is demanded — and for every store its response renders
each drink in short view, whose step objects never contain a `parts` key. -/
theorem get_drinks_public_short_view :
    requiredPermission .getDrinks = none ∧
    ∀ store : List StoredDrink,
      ((jsonArrElems (jsonGetKey (get_drinks store) "drinks")).all
        (fun dj => ((jsonArrElems (jsonGetKey dj "recipe")).all
          (fun st => !(jsonHasKey st "parts"))))) = true := by
  refine ⟨rfl, ?_⟩
  intro store
  rw [show jsonArrElems (jsonGetKey (get_drinks store) "drinks")
      = store.map drinkShort from rfl]
  induction store with
  | nil => rfl
  | cons d rest ih =>
      simp only [List.map_cons, List.all_cons, ih, drinkShort_no_parts d, Bool.and_true]
